import Mathlib

/-!
Verification of the zego-agent repository: a browser voice/text chat client
with a minimal Express backend that signs requests to the ZEGO AI-agent cloud
API with an HMAC-SHA256 scheme, forwards JSON payloads, and relays LLM
completions, while the React client mirrors vendor SDK callbacks into UI
state and a local-storage conversation history.

The embedding below follows the server source (src/server/src/server.ts,
first revision, whose line numbers the claims cite) and the client chat hook
(src/unnamed/part_001, second revision of useChat).  JavaScript strings are
Lean `String`s, JS objects with string-convertible values are association
lists `List (String × String)` with insertion-order spread semantics, machine
words of the hash are `Nat` reduced modulo 2^32, and the `crypto` module's
HMAC-SHA256 is embedded in full (FIPS 180-4 / RFC 2104 as Node implements
them, including the hash-long-keys and zero-pad-short-keys normalization).
-/

set_option maxRecDepth 100000

namespace ZegoAgent

/-! ## 32-bit word arithmetic over Nat -/

/-- The modulus 2^32 for 32-bit words. -/
def m32 : Nat := 4294967296

/-- Addition modulo 2^32. -/
def add32 (a b : Nat) : Nat := (a + b) % m32

/-- Right rotation of a 32-bit word (input assumed < 2^32). -/
def rotr32 (n x : Nat) : Nat := (x >>> n) ||| ((x <<< (32 - n)) % m32)

/-- SHA-256 small sigma 0. -/
def smallSigma0 (x : Nat) : Nat := (rotr32 7 x) ^^^ (rotr32 18 x) ^^^ (x >>> 3)

/-- SHA-256 small sigma 1. -/
def smallSigma1 (x : Nat) : Nat := (rotr32 17 x) ^^^ (rotr32 19 x) ^^^ (x >>> 10)

/-- SHA-256 big sigma 0. -/
def bigSigma0 (x : Nat) : Nat := (rotr32 2 x) ^^^ (rotr32 13 x) ^^^ (rotr32 22 x)

/-- SHA-256 big sigma 1. -/
def bigSigma1 (x : Nat) : Nat := (rotr32 6 x) ^^^ (rotr32 11 x) ^^^ (rotr32 25 x)

/-- SHA-256 choice function; complement is xor with 2^32 - 1. -/
def chF (x y z : Nat) : Nat := (x &&& y) ^^^ ((x ^^^ 4294967295) &&& z)

/-- SHA-256 majority function. -/
def majF (x y z : Nat) : Nat := (x &&& y) ^^^ (x &&& z) ^^^ (y &&& z)

/-! ## SHA-256 -/

/-- The 64 SHA-256 round constants of FIPS 180-4, in decimal. -/
def sha256K : List Nat :=
  [1116352408, 1899447441, 3049323471, 3921009573,
   961987163, 1508970993, 2453635748, 2870763221,
   3624381080, 310598401, 607225278, 1426881987,
   1925078388, 2162078206, 2614888103, 3248222580,
   3835390401, 4022224774, 264347078, 604807628,
   770255983, 1249150122, 1555081692, 1996064986,
   2554220882, 2821834349, 2952996808, 3210313671,
   3336571891, 3584528711, 113926993, 338241895,
   666307205, 773529912, 1294757372, 1396182291,
   1695183700, 1986661051, 2177026350, 2456956037,
   2730485921, 2820302411, 3259730800, 3345764771,
   3516065817, 3600352804, 4094571909, 275423344,
   430227734, 506948616, 659060556, 883997877,
   958139571, 1322822218, 1537002063, 1747873779,
   1955562222, 2024104815, 2227730452, 2361852424,
   2428436474, 2756734187, 3204031479, 3329325298]

/-- The eight 32-bit working variables of SHA-256. -/
structure Sha256State where
  a : Nat
  b : Nat
  c : Nat
  d : Nat
  e : Nat
  f : Nat
  g : Nat
  h : Nat
  deriving DecidableEq

/-- The SHA-256 initial hash value of FIPS 180-4, in decimal. -/
def sha256Init : Sha256State :=
  ⟨1779033703, 3144134277, 1013904242, 2773480762,
   1359893119, 2600822924, 528734635, 1541459225⟩

/-- Extend the message schedule by n words (W[t] from W[t-2], W[t-7], W[t-15], W[t-16]). -/
def scheduleExtend (w : List Nat) : Nat → List Nat
  | 0 => w
  | n + 1 =>
    let w2 := scheduleExtend w n
    let t := w2.length
    w2 ++ [add32 (add32 (w2.getD (t - 16) 0) (smallSigma0 (w2.getD (t - 15) 0)))
                 (add32 (w2.getD (t - 7) 0) (smallSigma1 (w2.getD (t - 2) 0)))]

/-- Full 64-word message schedule from a 16-word block. -/
def sha256Schedule (block : List Nat) : List Nat := scheduleExtend block 48

/-- One SHA-256 round on the working variables. -/
def sha256Round (st : Sha256State) (k w : Nat) : Sha256State :=
  let t1 := add32 st.h (add32 (bigSigma1 st.e) (add32 (chF st.e st.f st.g) (add32 k w)))
  let t2 := add32 (bigSigma0 st.a) (majF st.a st.b st.c)
  ⟨add32 t1 t2, st.a, st.b, st.c, add32 st.d t1, st.e, st.f, st.g⟩

/-- Compress one 16-word block into the running state. -/
def sha256Compress (st : Sha256State) (block : List Nat) : Sha256State :=
  let w := sha256Schedule block
  let e := (List.zip sha256K w).foldl (fun s kw => sha256Round s kw.1 kw.2) st
  ⟨add32 st.a e.a, add32 st.b e.b, add32 st.c e.c, add32 st.d e.d,
   add32 st.e e.e, add32 st.f e.f, add32 st.g e.g, add32 st.h e.h⟩

/-- A 32-bit word as four big-endian bytes. -/
def be32Bytes (w : Nat) : List Nat := [(w >>> 24) % 256, (w >>> 16) % 256, (w >>> 8) % 256, w % 256]

/-- A 64-bit length as eight big-endian bytes. -/
def be64Bytes (n : Nat) : List Nat :=
  [(n >>> 56) % 256, (n >>> 48) % 256, (n >>> 40) % 256, (n >>> 32) % 256,
   (n >>> 24) % 256, (n >>> 16) % 256, (n >>> 8) % 256, n % 256]

/-- Group bytes into big-endian 32-bit words, four bytes at a time. -/
def bytesToWords32 : List Nat → List Nat
  | b0 :: b1 :: b2 :: b3 :: rest =>
      (b0 * 16777216 + b1 * 65536 + b2 * 256 + b3) :: bytesToWords32 rest
  | _ => []

/-- SHA-256 padding: 0x80, zeros, then the bit length as 64-bit big-endian. -/
def sha256Pad (msg : List Nat) : List Nat :=
  let padZeros := (64 - ((msg.length + 9) % 64)) % 64
  msg ++ [128] ++ List.replicate padZeros 0 ++ be64Bytes (8 * msg.length)

/-- Split a byte list into 64-byte chunks, with fuel for structural recursion
(fuel at least the length always suffices since each step drops 64 bytes). -/
def chunks64Fuel : Nat → List Nat → List (List Nat)
  | 0, _ => []
  | _, [] => []
  | fuel + 1, l => l.take 64 :: chunks64Fuel fuel (l.drop 64)

/-- Split a byte list into 64-byte chunks. -/
def chunks64 (l : List Nat) : List (List Nat) := chunks64Fuel l.length l

/-- SHA-256 of a byte list, as 32 digest bytes. -/
def sha256Bytes (msg : List Nat) : List Nat :=
  let fin := (chunks64 (sha256Pad msg)).foldl
    (fun st blk => sha256Compress st (bytesToWords32 blk)) sha256Init
  be32Bytes fin.a ++ be32Bytes fin.b ++ be32Bytes fin.c ++ be32Bytes fin.d ++
  be32Bytes fin.e ++ be32Bytes fin.f ++ be32Bytes fin.g ++ be32Bytes fin.h

/-! ## UTF-8 and hex rendering -/

/-- UTF-8 encoding of one Unicode code point. -/
def utf8Bytes (c : Nat) : List Nat :=
  if c < 128 then [c]
  else if c < 2048 then [192 + c / 64, 128 + c % 64]
  else if c < 65536 then [224 + c / 4096, 128 + (c / 64) % 64, 128 + c % 64]
  else [240 + c / 262144, 128 + (c / 4096) % 64, 128 + (c / 64) % 64, 128 + c % 64]

/-- The UTF-8 bytes of a string (Node treats string hash inputs and keys as UTF-8). -/
def strBytes (s : String) : List Nat := s.data.flatMap (fun c => utf8Bytes c.toNat)

/-- Lowercase hex character for a value below 16. -/
def hexChar (n : Nat) : Char := if n < 10 then Char.ofNat (48 + n) else Char.ofNat (87 + n)

/-- Lowercase hex rendering of a byte list, as Node digest hex does. -/
def bytesToHex (bs : List Nat) : String :=
  String.mk (bs.flatMap (fun b => [hexChar (b / 16), hexChar (b % 16)]))

/-! ## HMAC-SHA256 (RFC 2104 with block size 64, as Node crypto.createHmac) -/

/-- Normalize an HMAC key to one 64-byte block: keys longer than the block are
replaced by their SHA-256 digest, then the key is zero-padded to 64 bytes. -/
def hmacBlockKey (key : List Nat) : List Nat :=
  let k := if key.length > 64 then sha256Bytes key else key
  k ++ List.replicate (64 - k.length) 0

/-- HMAC-SHA256 of a message under a key, both byte lists. -/
def hmacSha256 (key msg : List Nat) : List Nat :=
  let k := hmacBlockKey key
  let inner := sha256Bytes (k.map (fun b => b ^^^ 54) ++ msg)
  sha256Bytes (k.map (fun b => b ^^^ 92) ++ inner)

/-- The hex digest of HMAC-SHA256 over UTF-8 strings: the embedding of
crypto.createHmac with digest hex in the source. -/
def hmacSha256Hex (key msg : String) : String :=
  bytesToHex (hmacSha256 (strBytes key) (strBytes msg))

/-! Sanity vectors pinning the hash embedding to the real functions. -/

/-- FIPS 180-4 vector: SHA-256 of the empty message. -/
theorem sha256_nist_empty :
    bytesToHex (sha256Bytes []) =
      "e3b0c44298fc1c149afbf4c8996fb92427ae41e4649b934ca495991b7852b855" := by decide

/-- FIPS 180-4 vector: SHA-256 of the three bytes of abc. -/
theorem sha256_nist_abc :
    bytesToHex (sha256Bytes (strBytes "abc")) =
      "ba7816bf8f01cfea414140de5dae2223b00361a396177a9cb410ff61f20015ad" := by decide

/-- RFC 4231 test case 2 for HMAC-SHA256. -/
theorem hmac_rfc4231_case2 :
    hmacSha256Hex "Jefe" "what do ya want for nothing?" =
      "5bdcc146bf60754e6a042426089575c75a003f089d2739839dec58b964ec3843" := by decide

/-! ## JS string order and object model

A JS object with string-convertible values is an association list in insertion
order; property assignment replaces the value at an existing key in place and
appends a new key at the end, which is object-literal spread semantics.  The
default Array.prototype.sort comparator orders strings by code units; on the
scalar-value strings Lean models this is codepoint-lexicographic order, and
object keys are pairwise distinct, so the sorted key list is the unique sorted
permutation, computed here by insertion sort. -/

/-- Lexicographic strict order on char lists by codepoint, as the default JS
string comparator decides it. -/
def charListLt : List Char → List Char → Bool
  | [], [] => false
  | [], _ :: _ => true
  | _ :: _, [] => false
  | a :: as, b :: bs => if a < b then true else if b < a then false else charListLt as bs

/-- Non-strict JS string comparison; used as the sort relation for keys. -/
def jsStrLe (a b : String) : Bool := !(charListLt b.data a.data)

/-- Property assignment: an existing key keeps its position and takes the new
value, a new key is appended at the end. -/
def objSet (o : List (String × String)) (k v : String) : List (String × String) :=
  if o.any (fun p => p.1 = k) then o.map (fun p => if p.1 = k then (k, v) else p)
  else o ++ [(k, v)]

/-- Object.keys: the keys in insertion order. -/
def objKeys (o : List (String × String)) : List String := o.map Prod.fst

/-- Property read, defaulting to the empty string (the source reads only keys
produced by Object.keys, where a value is always present). -/
def objGet (o : List (String × String)) (k : String) : String :=
  ((o.find? (fun p => p.1 = k)).map Prod.snd).getD ""

/-! ## The request-signing helper (generateZegoSignature, server.ts 45-59) -/

/-- The parameter object extended with AppId, SignatureNonce, Timestamp and
SignatureVersion, the object literal built first in generateZegoSignature.
The JS Timestamp number renders in the query as its decimal string. -/
def extendSignatureParams (params : List (String × String)) (cfgAppId : String)
    (nonce : String) (ts : Nat) : List (String × String) :=
  objSet (objSet (objSet (objSet params "AppId" cfgAppId) "SignatureNonce" nonce)
    "Timestamp" (toString ts)) "SignatureVersion" "2.0"

/-- Object.keys(signatureParams).sort(): the keys sorted by the default JS
string comparator (insertion sort computes the sorted stable permutation). -/
def sortedKeysJs (o : List (String × String)) : List String :=
  List.insertionSort (fun a b => jsStrLe a b = true) (objKeys o)

/-- sortedKeys.map(k => k + "=" + params[k]).join("&"). -/
def canonicalQueryString (o : List (String × String)) : String :=
  String.intercalate "&" ((sortedKeysJs o).map (fun k => k ++ "=" ++ objGet o k))

/-- Embedding of generateZegoSignature (server.ts lines 45-59).  The sampled
timestamp and random nonce are explicit arguments; the config app id and
server secret are parameters. -/
def generateZegoSignature (cfgAppId cfgServerSecret : String)
    (params : List (String × String)) (ts : Nat) (nonce : String) :
    List (String × String) :=
  let signatureParams := extendSignatureParams params cfgAppId nonce ts
  let queryString := canonicalQueryString signatureParams
  let signature := hmacSha256Hex cfgServerSecret queryString
  objSet signatureParams "Signature" signature

/-- The vendor signing formula as the specification words it, written
independently of the source translation: extend the parameters, sort all keys
lexicographically (the linear order on String), join key=value pairs with
ampersands, and add the hex HMAC-SHA256 digest under the server secret as the
Signature field. -/
def zegoSignatureSpec (cfgAppId cfgServerSecret : String)
    (params : List (String × String)) (ts : Nat) (nonce : String) :
    List (String × String) :=
  let ext := extendSignatureParams params cfgAppId nonce ts
  let sorted := List.insertionSort (fun a b : String => a ≤ b) (objKeys ext)
  let query := String.intercalate "&" (sorted.map (fun k => k ++ "=" ++ objGet ext k))
  objSet ext "Signature" (hmacSha256Hex cfgServerSecret query)

/-! Lemmas: the JS comparator is the lexicographic order on String. -/

/-- The executable char-list comparison agrees with lexicographic Lex on <. -/
theorem charListLt_iff_lex (x y : List Char) :
    charListLt x y = true ↔ List.Lex (fun a b : Char => a < b) x y := by
  induction x generalizing y with
  | nil =>
    cases y with
    | nil =>
      simp only [charListLt]
      constructor
      · intro h; exact absurd h (by decide)
      · intro h; exact absurd h (List.Lex.not_nil_right _ _)
    | cons b bs =>
      simp only [charListLt]
      exact ⟨fun _ => List.Lex.nil, fun _ => trivial⟩
  | cons a as ih =>
    cases y with
    | nil =>
      simp only [charListLt]
      constructor
      · intro h; exact absurd h (by decide)
      · intro h; exact absurd h (List.Lex.not_nil_right _ _)
    | cons b bs =>
      simp only [charListLt]
      by_cases hab : a < b
      · simp only [hab, if_true]
        exact ⟨fun _ => List.Lex.rel hab, fun _ => trivial⟩
      · by_cases hba : b < a
        · simp only [hab, hba, if_false, if_true]
          constructor
          · intro h; exact absurd h (by decide)
          · intro h
            cases h with
            | rel h2 => exact absurd h2 hab
            | cons h2 => exact absurd hba (lt_irrefl a)
        · have heq : a = b := le_antisymm (not_lt.mp hba) (not_lt.mp hab)
          subst heq
          simp only [hab, hba, if_false]
          constructor
          · intro h; exact List.Lex.cons ((ih bs).mp h)
          · intro h
            cases h with
            | rel h2 => exact absurd h2 (lt_irrefl a)
            | cons h2 => exact (ih bs).mpr h2
/-- The JS comparator is the linear order on String. -/
theorem jsStrLe_iff_le (a b : String) : jsStrLe a b = true ↔ a ≤ b := by
  have hlt : b < a ↔ List.Lex (fun x y : Char => x < y) b.data a.data := by
    rw [String.lt_iff_toList_lt]
    exact Iff.rfl
  constructor
  · intro h
    intro hba
    have := (charListLt_iff_lex b.data a.data).mpr (hlt.mp hba)
    simp only [jsStrLe, this] at h
    exact absurd h (by decide)
  · intro h
    simp only [jsStrLe, Bool.not_eq_true']
    by_contra h2
    have h3 : charListLt b.data a.data = true := by
      cases hcl : charListLt b.data a.data with
      | false => exact absurd hcl h2
      | true => rfl
    exact h (hlt.mpr ((charListLt_iff_lex b.data a.data).mp h3))

/-- The JS key sort equals the insertion sort over the String linear order. -/
theorem sortedKeysJs_eq_sorted (l : List String) :
    List.insertionSort (fun a b => jsStrLe a b = true) l =
      List.insertionSort (fun a b : String => a ≤ b) l := by
  have hiff : ∀ a b : String, (jsStrLe a b = true) ↔ a ≤ b := jsStrLe_iff_le
  haveI : IsTotal String (fun a b => jsStrLe a b = true) :=
    ⟨fun a b => by rcases le_total a b with h | h
                   · exact Or.inl ((hiff a b).mpr h)
                   · exact Or.inr ((hiff b a).mpr h)⟩
  haveI : IsTrans String (fun a b => jsStrLe a b = true) :=
    ⟨fun a b c hab hbc => (hiff a c).mpr (le_trans ((hiff a b).mp hab) ((hiff b c).mp hbc))⟩
  have hs1 : List.Sorted (fun a b : String => a ≤ b)
      (List.insertionSort (fun a b => jsStrLe a b = true) l) :=
    List.Pairwise.imp (fun h => (jsStrLe_iff_le _ _).mp h) (List.sorted_insertionSort _ l)
  have hs2 : List.Sorted (fun a b : String => a ≤ b)
      (List.insertionSort (fun a b : String => a ≤ b) l) :=
    List.sorted_insertionSort _ l
  have hp : (List.insertionSort (fun a b => jsStrLe a b = true) l).Perm
      (List.insertionSort (fun a b : String => a ≤ b) l) :=
    (List.perm_insertionSort _ l).trans (List.perm_insertionSort _ l).symm
  exact List.eq_of_perm_of_sorted hp hs1 hs2

/-! Lemmas about property reads after assignment. -/

/-- Reading a key that the in-place update branch just wrote gives the new value. -/
theorem objGet_map_set (o : List (String × String)) (k v : String)
    (h : o.any (fun p => p.1 = k) = true) :
    objGet (o.map (fun p => if p.1 = k then (k, v) else p)) k = v := by
  induction o with
  | nil => simp at h
  | cons p rest ih =>
    by_cases hp : p.1 = k
    · simp [objGet, List.find?_cons, hp]
    · have h2 : rest.any (fun q => q.1 = k) = true := by
        simp only [List.any_cons, Bool.or_eq_true, decide_eq_true_eq] at h
        rcases h with h | h
        · exact absurd h hp
        · exact h
      simpa [objGet, List.find?_cons, hp] using ih h2

/-- Reading a different key after the in-place update branch is unchanged. -/
theorem objGet_map_set_diff (o : List (String × String)) (k k2 v : String) (h : k2 ≠ k) :
    objGet (o.map (fun p => if p.1 = k then (k, v) else p)) k2 = objGet o k2 := by
  induction o with
  | nil => simp [objGet]
  | cons p rest ih =>
    by_cases hp : p.1 = k
    · simp only [List.map_cons, if_pos hp, objGet, List.find?_cons]
      have : (decide (k = k2)) = false := by
        simp only [decide_eq_false_iff_not]
        exact fun h2 => h h2.symm
      have hpk2 : (decide (p.1 = k2)) = false := by
        simp only [decide_eq_false_iff_not]
        intro h2
        exact h (hp ▸ h2).symm
      simp only [this, hpk2]
      exact ih
    · simp only [List.map_cons, if_neg hp, objGet, List.find?_cons]
      by_cases hpk2 : p.1 = k2
      · simp [hpk2]
      · simp only [decide_eq_false hpk2]
        exact ih

/-- Assignment at an absent key is appending. -/
theorem objSet_not_mem (o : List (String × String)) (k v : String)
    (h : k ∉ objKeys o) :
    objSet o k v = o ++ [(k, v)] := by
  have hany : o.any (fun p => p.1 = k) = false := by
    rw [Bool.eq_false_iff]
    intro h2
    rw [List.any_eq_true] at h2
    obtain ⟨p, hmem, hk⟩ := h2
    rw [decide_eq_true_eq] at hk
    exact h (hk ▸ List.mem_map_of_mem Prod.fst hmem)
  simp [objSet, hany]

/-- Reading back the key just assigned gives the value assigned. -/
theorem objGet_objSet_same (o : List (String × String)) (k v : String) :
    objGet (objSet o k v) k = v := by
  unfold objSet
  by_cases h : o.any (fun p => p.1 = k) = true
  · simp only [h, if_true]
    exact objGet_map_set o k v h
  · rw [Bool.not_eq_true] at h
    simp only [h, Bool.false_eq_true, if_false]
    have hn : o.find? (fun p => p.1 = k) = none := by
      rw [List.find?_eq_none]
      intro p hmem hk
      rw [decide_eq_true_eq] at hk
      have : o.any (fun q => q.1 = k) = true := by
        rw [List.any_eq_true]
        exact ⟨p, hmem, decide_eq_true hk⟩
      rw [h] at this
      exact absurd this (by decide)
    simp [objGet, List.find?_append, hn]

/-- Reading a different key after an assignment is unchanged. -/
theorem objGet_objSet_diff (o : List (String × String)) (k k2 v : String) (h : k2 ≠ k) :
    objGet (objSet o k v) k2 = objGet o k2 := by
  unfold objSet
  by_cases hc : o.any (fun p => p.1 = k) = true
  · simp only [hc, if_true]
    exact objGet_map_set_diff o k k2 v h
  · rw [Bool.not_eq_true] at hc
    simp only [hc, Bool.false_eq_true, if_false]
    have : (decide (k = k2)) = false := by
      simp only [decide_eq_false_iff_not]
      exact fun h2 => h h2.symm
    simp [objGet, List.find?_append, this, Option.or_none]

/-! ## Claims C1, C5, C7 on the signing helper -/

/-- C1: generateZegoSignature computes the signature by the fixed vendor
formula: it extends the parameters with AppId, SignatureNonce, Timestamp and
SignatureVersion 2.0 (first conjunct group: those fields read back with those
values), sorts all keys lexicographically, concatenates key=value pairs with
ampersands, takes the hex HMAC-SHA256 digest keyed by the server secret
(refinement to the independently worded zegoSignatureSpec), and returns the
extended parameter map with the digest appended as the Signature field (the
append form, under the hypothesis that the request parameters carry no
Signature key of their own, which every JS object passed in the source
satisfies). -/
theorem generateZegoSignature_formula (cfgAppId cfgServerSecret : String)
    (params : List (String × String)) (ts : Nat) (nonce : String)
    (hsig : "Signature" ∉ objKeys (extendSignatureParams params cfgAppId nonce ts)) :
    generateZegoSignature cfgAppId cfgServerSecret params ts nonce =
        zegoSignatureSpec cfgAppId cfgServerSecret params ts nonce ∧
    generateZegoSignature cfgAppId cfgServerSecret params ts nonce =
        extendSignatureParams params cfgAppId nonce ts ++
          [("Signature",
            hmacSha256Hex cfgServerSecret
              (canonicalQueryString (extendSignatureParams params cfgAppId nonce ts)))] ∧
    objGet (extendSignatureParams params cfgAppId nonce ts) "AppId" = cfgAppId ∧
    objGet (extendSignatureParams params cfgAppId nonce ts) "SignatureNonce" = nonce ∧
    objGet (extendSignatureParams params cfgAppId nonce ts) "Timestamp" = toString ts ∧
    objGet (extendSignatureParams params cfgAppId nonce ts) "SignatureVersion" = "2.0" := by
  refine ⟨?_, ?_, ?_, ?_, ?_, ?_⟩
  · simp only [generateZegoSignature, zegoSignatureSpec, canonicalQueryString, sortedKeysJs]
    rw [sortedKeysJs_eq_sorted]
  · simp only [generateZegoSignature]
    exact objSet_not_mem _ _ _ hsig
  · unfold extendSignatureParams
    rw [objGet_objSet_diff _ _ _ _ (by decide), objGet_objSet_diff _ _ _ _ (by decide),
        objGet_objSet_diff _ _ _ _ (by decide), objGet_objSet_same]
  · unfold extendSignatureParams
    rw [objGet_objSet_diff _ _ _ _ (by decide), objGet_objSet_diff _ _ _ _ (by decide),
        objGet_objSet_same]
  · unfold extendSignatureParams
    rw [objGet_objSet_diff _ _ _ _ (by decide), objGet_objSet_same]
  · unfold extendSignatureParams
    rw [objGet_objSet_same]

/-- Witness for C1 at the only parameter shape the server builds, a single
Action entry. -/
theorem generateZegoSignature_formula_witness :
    ("Signature" ∉
        objKeys (extendSignatureParams [("Action", "RegisterAgent")] "12345" "0a1b" 1700000000)) ∧
    generateZegoSignature "12345" "topsecret" [("Action", "RegisterAgent")] 1700000000 "0a1b" =
      zegoSignatureSpec "12345" "topsecret" [("Action", "RegisterAgent")] 1700000000 "0a1b" :=
  ⟨by decide,
   (generateZegoSignature_formula "12345" "topsecret" [("Action", "RegisterAgent")]
      1700000000 "0a1b" (by decide)).1⟩

/-- C5: the signature computation is deterministic: equal parameter maps, app
id, server secret, timestamp and nonce give the same canonical query string
and the same signed output map. -/
theorem generateZegoSignature_deterministic
    (a1 a2 s1 s2 n1 n2 : String) (p1 p2 : List (String × String)) (t1 t2 : Nat)
    (ha : a1 = a2) (hs : s1 = s2) (hp : p1 = p2) (ht : t1 = t2) (hn : n1 = n2) :
    canonicalQueryString (extendSignatureParams p1 a1 n1 t1) =
      canonicalQueryString (extendSignatureParams p2 a2 n2 t2) ∧
    generateZegoSignature a1 s1 p1 t1 n1 = generateZegoSignature a2 s2 p2 t2 n2 := by
  subst ha
  subst hs
  subst hp
  subst ht
  subst hn
  exact ⟨rfl, rfl⟩

/-- Witness for C5 at a concrete run of the signing helper. -/
theorem generateZegoSignature_deterministic_witness :
    canonicalQueryString (extendSignatureParams [("Action", "RegisterAgent")] "123" "beef" 1700000001) =
      canonicalQueryString (extendSignatureParams [("Action", "RegisterAgent")] "123" "beef" 1700000001) ∧
    generateZegoSignature "123" "sec" [("Action", "RegisterAgent")] 1700000001 "beef" =
      generateZegoSignature "123" "sec" [("Action", "RegisterAgent")] 1700000001 "beef" :=
  generateZegoSignature_deterministic "123" "123" "sec" "sec" "beef" "beef"
    [("Action", "RegisterAgent")] [("Action", "RegisterAgent")] 1700000001 1700000001
    rfl rfl rfl rfl rfl

/-- Two string keys with the same normalized 64-byte HMAC key block produce
the same hex digest on every message. -/
theorem hmacSha256Hex_keyBlock_congr (s1 s2 m : String)
    (h : hmacBlockKey (strBytes s1) = hmacBlockKey (strBytes s2)) :
    hmacSha256Hex s1 m = hmacSha256Hex s2 m := by
  simp only [hmacSha256Hex, hmacSha256, h]

/-- C7 is false as a universal statement: the secrets differ yet every run of
generateZegoSignature signs identically, because HMAC zero-pads keys shorter
than its 64-byte block, so a secret and the same secret with a trailing NUL
byte normalize to the same key block. -/
theorem wrongSecret_collision_counterexample :
    ("secret" : String) ≠ "secret" ++ String.mk [Char.ofNat 0] ∧
    generateZegoSignature "123" "secret" [("Action", "RegisterAgent")] 1700000000 "0f" =
      generateZegoSignature "123" ("secret" ++ String.mk [Char.ofNat 0])
        [("Action", "RegisterAgent")] 1700000000 "0f" := by
  constructor
  · decide
  · have hk : hmacBlockKey (strBytes "secret") =
        hmacBlockKey (strBytes ("secret" ++ String.mk [Char.ofNat 0])) := by decide
    simp only [generateZegoSignature]
    rw [hmacSha256Hex_keyBlock_congr _ _ _ hk]

/-- C7 amended: at a fixed test vector a wrong secret with a different
normalized key block produces a different signature; the universal form fails
only for distinct secrets normalizing to the same HMAC key block. -/
theorem wrongSecret_wrongSignature_vector :
    ("topsecret" : String) ≠ "wrongsecret" ∧
    generateZegoSignature "123" "topsecret" [("Action", "RegisterAgent")] 1700000000 "0f" ≠
      generateZegoSignature "123" "wrongsecret" [("Action", "RegisterAgent")] 1700000000 "0f" :=
  ⟨by decide, by decide⟩

/-! ## The Express API handlers (server.ts)

Each async handler is a function of the request fields it destructures, the
module-level mutable REGISTERED_AGENT_ID threaded as explicit state, and the
outcome of each awaited vendor call: a parsed response body, or the message of
the rejection it throws.  A handler returns the HTTP response it sends, the
new state, and the list of vendor actions it issued. -/

/-- JS truthiness of an optional string field: undefined and the empty string
are falsy. -/
def jsTruthy : Option String → Bool
  | none => false
  | some s => !(s == "")

/-- The JS pattern m || d on an optional string: the default replaces
undefined and the empty string. -/
def jsOrDefault : Option String → String → String
  | none, d => d
  | some s, d => if s = "" then d else s

/-- The JS pattern s || d on a definite string (thrown error messages). -/
def jsOrS (s d : String) : String := if s = "" then d else s

/-- The vendor response body as the handlers consume it: Code, the optional
Message, and result.Data?.AgentInstanceId flattened into one optional field
(undefined when Data or its field is absent). -/
structure ZegoResponse where
  Code : Int
  Message : Option String := none
  DataAgentInstanceId : Option String := none
  deriving DecidableEq

/-- Outcome of an awaited vendor call: the parsed body, or the message of the
error the await throws. -/
abbrev VendorOutcome := Except String ZegoResponse

/-- The JSON-with-status responses the handlers send.  The occasional extra
detail field of 400 responses is not modeled; status, success flag, error
message and the returned ids are. -/
structure ApiResponse where
  status : Nat
  success : Option Bool := none
  error : Option String := none
  agentInstanceId : Option String := none
  agentId : Option String := none
  deriving DecidableEq

/-- REGISTERED_AGENT_ID starts null (server.ts line 43). -/
def initialRegisteredAgentId : Option String := none

/-- Embedding of registerAgent (server.ts lines 108-145): return the cached id
without a vendor call when the global is truthy; otherwise issue
RegisterAgent, throw its Message (or a default) on nonzero Code leaving the
global unchanged, and on Code 0 store and return the freshly minted id.  The
fresh agent id the function would mint from the clock is an argument. -/
def registerAgent (state : Option String) (freshId : String) (vendor : VendorOutcome) :
    Except String String × Option String × List String :=
  if jsTruthy state then (Except.ok (state.getD ""), state, [])
  else
    match vendor with
    | Except.error e => (Except.error e, state, ["RegisterAgent"])
    | Except.ok r =>
      if r.Code ≠ 0 then
        (Except.error (jsOrDefault r.Message "RegisterAgent failed"), state, ["RegisterAgent"])
      else (Except.ok freshId, some freshId, ["RegisterAgent"])

/-- Embedding of the /api/start handler (server.ts lines 148-175). -/
def startHandler (state : Option String) (freshId : String)
    (room_id user_id : Option String) (regVendor createVendor : VendorOutcome) :
    ApiResponse × Option String × List String :=
  if !(jsTruthy room_id && jsTruthy user_id) then
    ({ status := 400, error := some "room_id and user_id are required" }, state, [])
  else
    match registerAgent state freshId regVendor with
    | (Except.error e, st2, acts) =>
      ({ status := 500, error := some (jsOrS e "CreateAgentInstance error") }, st2, acts)
    | (Except.ok agentId, st2, acts) =>
      match createVendor with
      | Except.error e =>
        ({ status := 500, error := some (jsOrS e "CreateAgentInstance error") }, st2,
          acts ++ ["CreateAgentInstance"])
      | Except.ok r =>
        if r.Code = 0 then
          ({ status := 200, success := some true, agentInstanceId := r.DataAgentInstanceId,
             agentId := some agentId }, st2, acts ++ ["CreateAgentInstance"])
        else
          ({ status := 400,
             error := some (jsOrDefault r.Message "Failed to create agent instance") }, st2,
            acts ++ ["CreateAgentInstance"])

/-- Embedding of the /api/send-message handler (server.ts lines 177-194); the
handler never assigns the registration global, so the state passes through. -/
def sendMessageHandler (state : Option String) (agent_instance_id message : Option String)
    (vendor : VendorOutcome) : ApiResponse × Option String × List String :=
  if !(jsTruthy agent_instance_id && jsTruthy message) then
    ({ status := 400, error := some "agent_instance_id and message are required" }, state, [])
  else
    match vendor with
    | Except.error e =>
      ({ status := 500, error := some (jsOrS e "SendAgentInstanceLLM error") }, state,
        ["SendAgentInstanceLLM"])
    | Except.ok r =>
      if r.Code = 0 then ({ status := 200, success := some true }, state, ["SendAgentInstanceLLM"])
      else
        ({ status := 400, error := some (jsOrDefault r.Message "Failed to send message") }, state,
          ["SendAgentInstanceLLM"])

/-- Embedding of the /api/stop handler (server.ts lines 196-212). -/
def stopHandler (state : Option String) (agent_instance_id : Option String)
    (vendor : VendorOutcome) : ApiResponse × Option String × List String :=
  if !(jsTruthy agent_instance_id) then
    ({ status := 400, error := some "agent_instance_id is required" }, state, [])
  else
    match vendor with
    | Except.error e =>
      ({ status := 500, error := some (jsOrS e "DeleteAgentInstance error") }, state,
        ["DeleteAgentInstance"])
    | Except.ok r =>
      if r.Code = 0 then ({ status := 200, success := some true }, state, ["DeleteAgentInstance"])
      else
        ({ status := 400, error := some (jsOrDefault r.Message "Failed to stop agent instance") },
          state, ["DeleteAgentInstance"])

/-- Embedding of the /proxy/llm auth gate (server.ts lines 74-106): status,
error body, and whether the upstream LLM request was issued. -/
def proxyLlmHandler (authHeader : Option String) (proxyAuth : String)
    (upstream : Except String Unit) : Nat × Option String × Bool :=
  if authHeader ≠ some ("Bearer " ++ proxyAuth) then (401, some "Unauthorized", false)
  else
    match upstream with
    | Except.ok _ => (200, none, true)
    | Except.error e => (500, some (jsOrS e "LLM request failed"), true)

/-- The routes the Express app registers, in registration order (server.ts
lines 74, 148, 177, 196, 214, 219, 243). -/
def registeredRoutes : List (String × String) :=
  [("POST", "/proxy/llm"), ("POST", "/api/start"), ("POST", "/api/send-message"),
   ("POST", "/api/stop"), ("POST", "/api/callbacks"), ("GET", "/api/token"), ("GET", "/health")]

/-- The five paths the specification lists as the REST surface exposed to the
frontend. -/
def claimedRestSurface : List String :=
  ["/api/start", "/api/send-message", "/api/stop", "/api/token", "/health"]

/-! ## Claims C2, C3, C8, C10 on the handlers, C4 on the routes -/

/-- C2: with all required body fields present, /api/start (once registration
produced an agent id), /api/send-message and /api/stop map a vendor response
with Code 0 to HTTP 200 with success true, a response with nonzero Code to
HTTP 400 with the vendor Message or a default in the error field, and a
thrown vendor call to HTTP 500 with an error message. -/
theorem apiHandlers_vendorOutcome_mapping
    (state st2 : Option String) (freshId agentId : String) (acts : List String)
    (room_id user_id agent_instance_id message : Option String) (regV : VendorOutcome)
    (hroom : jsTruthy room_id = true) (huser : jsTruthy user_id = true)
    (hinst : jsTruthy agent_instance_id = true) (hmsg : jsTruthy message = true)
    (hreg : registerAgent state freshId regV = (Except.ok agentId, st2, acts)) :
    (∀ r : ZegoResponse, r.Code = 0 →
      (startHandler state freshId room_id user_id regV (Except.ok r)).1 =
        { status := 200, success := some true, agentInstanceId := r.DataAgentInstanceId,
          agentId := some agentId }) ∧
    (∀ r : ZegoResponse, r.Code ≠ 0 →
      (startHandler state freshId room_id user_id regV (Except.ok r)).1 =
        { status := 400, error := some (jsOrDefault r.Message "Failed to create agent instance") }) ∧
    (∀ e : String,
      (startHandler state freshId room_id user_id regV (Except.error e)).1 =
        { status := 500, error := some (jsOrS e "CreateAgentInstance error") }) ∧
    (∀ r : ZegoResponse, r.Code = 0 →
      (sendMessageHandler state agent_instance_id message (Except.ok r)).1 =
        { status := 200, success := some true }) ∧
    (∀ r : ZegoResponse, r.Code ≠ 0 →
      (sendMessageHandler state agent_instance_id message (Except.ok r)).1 =
        { status := 400, error := some (jsOrDefault r.Message "Failed to send message") }) ∧
    (∀ e : String,
      (sendMessageHandler state agent_instance_id message (Except.error e)).1 =
        { status := 500, error := some (jsOrS e "SendAgentInstanceLLM error") }) ∧
    (∀ r : ZegoResponse, r.Code = 0 →
      (stopHandler state agent_instance_id (Except.ok r)).1 =
        { status := 200, success := some true }) ∧
    (∀ r : ZegoResponse, r.Code ≠ 0 →
      (stopHandler state agent_instance_id (Except.ok r)).1 =
        { status := 400, error := some (jsOrDefault r.Message "Failed to stop agent instance") }) ∧
    (∀ e : String,
      (stopHandler state agent_instance_id (Except.error e)).1 =
        { status := 500, error := some (jsOrS e "DeleteAgentInstance error") }) := by
  refine ⟨?_, ?_, ?_, ?_, ?_, ?_, ?_, ?_, ?_⟩
  · intro r h
    simp [startHandler, hroom, huser, hreg, h]
  · intro r h
    simp [startHandler, hroom, huser, hreg, h]
  · intro e
    simp [startHandler, hroom, huser, hreg]
  · intro r h
    simp [sendMessageHandler, hinst, hmsg, h]
  · intro r h
    simp [sendMessageHandler, hinst, hmsg, h]
  · intro e
    simp [sendMessageHandler, hinst, hmsg]
  · intro r h
    simp [stopHandler, hinst, h]
  · intro r h
    simp [stopHandler, hinst, h]
  · intro e
    simp [stopHandler, hinst]

/-- Witness for C2 at concrete fields and a successful fresh registration. -/
theorem apiHandlers_vendorOutcome_mapping_witness :
    (startHandler none "agent_1" (some "r1") (some "u1")
        (Except.ok { Code := 0 }) (Except.ok { Code := 0, DataAgentInstanceId := some "i1" })).1 =
      { status := 200, success := some true, agentInstanceId := some "i1",
        agentId := some "agent_1" } ∧
    (sendMessageHandler none (some "i1") (some "hello")
        (Except.ok { Code := 1, Message := some "bad" })).1 =
      { status := 400, error := some "bad" } ∧
    (stopHandler none (some "i1") (Except.error "boom")).1 =
      { status := 500, error := some "boom" } := by
  have h := apiHandlers_vendorOutcome_mapping none (some "agent_1") "agent_1" "agent_1"
    ["RegisterAgent"] (some "r1") (some "u1") (some "i1") (some "hello")
    (Except.ok { Code := 0 }) (by decide) (by decide) (by decide) (by decide) rfl
  refine ⟨?_, ?_, ?_⟩
  · exact h.1 { Code := 0, DataAgentInstanceId := some "i1" } rfl
  · exact h.2.2.2.2.1 { Code := 1, Message := some "bad" } (by decide)
  · exact h.2.2.2.2.2.2.2.2 "boom"

/-- C3: a request missing a required field is answered 400 with an error
naming the required fields, no vendor action is issued, and the registration
global is left unchanged (the full result triple is pinned). -/
theorem requiredFields_validation
    (state : Option String) (freshId : String)
    (room_id user_id aidSend msgSend aidStop : Option String)
    (regV createV sendV stopV : VendorOutcome) :
    ((jsTruthy room_id && jsTruthy user_id) = false →
      startHandler state freshId room_id user_id regV createV =
        ({ status := 400, error := some "room_id and user_id are required" }, state, [])) ∧
    ((jsTruthy aidSend && jsTruthy msgSend) = false →
      sendMessageHandler state aidSend msgSend sendV =
        ({ status := 400, error := some "agent_instance_id and message are required" },
          state, [])) ∧
    (jsTruthy aidStop = false →
      stopHandler state aidStop stopV =
        ({ status := 400, error := some "agent_instance_id is required" }, state, [])) := by
  refine ⟨?_, ?_, ?_⟩
  · intro h
    simp [startHandler, h]
  · intro h
    simp [sendMessageHandler, h]
  · intro h
    simp [stopHandler, h]

/-- Witness for C3 at concretely missing fields. -/
theorem requiredFields_validation_witness :
    startHandler none "agent_1" none (some "u1") (Except.ok { Code := 0 })
        (Except.ok { Code := 0 }) =
      ({ status := 400, error := some "room_id and user_id are required" }, none, []) ∧
    sendMessageHandler (some "agent_0") (some "i1") (some "") (Except.ok { Code := 0 }) =
      ({ status := 400, error := some "agent_instance_id and message are required" },
        some "agent_0", []) ∧
    stopHandler none none (Except.ok { Code := 0 }) =
      ({ status := 400, error := some "agent_instance_id is required" }, none, []) := by
  have h := requiredFields_validation none "agent_1" none (some "u1") (some "i1") (some "")
    none (Except.ok { Code := 0 }) (Except.ok { Code := 0 }) (Except.ok { Code := 0 })
    (Except.ok { Code := 0 })
  have h2 := requiredFields_validation (some "agent_0") "agent_1" none (some "u1") (some "i1")
    (some "") none (Except.ok { Code := 0 }) (Except.ok { Code := 0 }) (Except.ok { Code := 0 })
    (Except.ok { Code := 0 })
  exact ⟨h.1 (by decide), h2.2.1 (by decide), h.2.2 (by decide)⟩

/-- C8: the registration global starts null; a call with the global unset and
a thrown or nonzero-Code vendor outcome raises an error and leaves the global
unchanged; Code 0 stores the freshly minted id; a call with the global set
returns the cached id and issues no vendor request; and the global changes
only on a Code 0 outcome, to the fresh id. -/
theorem registerAgent_memoized (state : Option String) (freshId : String) :
    initialRegisteredAgentId = none ∧
    (∀ s : String, state = some s → s ≠ "" →
      ∀ vendor : VendorOutcome, registerAgent state freshId vendor = (Except.ok s, state, [])) ∧
    (jsTruthy state = false →
      ∀ e : String, registerAgent state freshId (Except.error e) =
        (Except.error e, state, ["RegisterAgent"])) ∧
    (jsTruthy state = false →
      ∀ r : ZegoResponse, r.Code ≠ 0 → registerAgent state freshId (Except.ok r) =
        (Except.error (jsOrDefault r.Message "RegisterAgent failed"), state, ["RegisterAgent"])) ∧
    (jsTruthy state = false →
      ∀ r : ZegoResponse, r.Code = 0 → registerAgent state freshId (Except.ok r) =
        (Except.ok freshId, some freshId, ["RegisterAgent"])) ∧
    (∀ vendor : VendorOutcome, (registerAgent state freshId vendor).2.1 ≠ state →
      ∃ r : ZegoResponse, vendor = Except.ok r ∧ r.Code = 0 ∧
        (registerAgent state freshId vendor).2.1 = some freshId) := by
  refine ⟨rfl, ?_, ?_, ?_, ?_, ?_⟩
  · intro s hs hne vendor
    subst hs
    have ht : jsTruthy (some s) = true := by
      simp [jsTruthy, hne]
    simp [registerAgent, ht]
  · intro h e
    simp [registerAgent, h]
  · intro h r hr
    simp [registerAgent, h, hr]
  · intro h r hr
    simp [registerAgent, h, hr]
  · intro vendor hchange
    by_cases ht : jsTruthy state = true
    · exact absurd (by simp [registerAgent, ht]) hchange
    · rw [Bool.not_eq_true] at ht
      match vendor with
      | Except.error e => exact absurd (by simp [registerAgent, ht]) hchange
      | Except.ok r =>
        by_cases hc : r.Code = 0
        · exact ⟨r, rfl, hc, by simp [registerAgent, ht, hc]⟩
        · exact absurd (by simp [registerAgent, ht, hc]) hchange

/-- Witness for C8: fresh success stores the id, and the stored id is then
served from cache with no vendor request. -/
theorem registerAgent_memoized_witness :
    registerAgent none "agent_7" (Except.ok { Code := 0 }) =
      (Except.ok "agent_7", some "agent_7", ["RegisterAgent"]) ∧
    registerAgent (some "agent_7") "agent_8" (Except.error "network down") =
      (Except.ok "agent_7", some "agent_7", []) ∧
    registerAgent none "agent_7" (Except.ok { Code := 5, Message := some "quota" }) =
      (Except.error "quota", none, ["RegisterAgent"]) := by
  refine ⟨?_, ?_, ?_⟩
  · exact (registerAgent_memoized none "agent_7").2.2.2.2.1 (by decide) { Code := 0 } rfl
  · exact (registerAgent_memoized (some "agent_7") "agent_8").2.1 "agent_7" rfl (by decide)
      (Except.error "network down")
  · exact (registerAgent_memoized none "agent_7").2.2.2.1 (by decide)
      { Code := 5, Message := some "quota" } (by decide)

/-- C10: a request whose Authorization header is not exactly Bearer followed
by the configured proxy token is answered 401 Unauthorized with no upstream
call; a request bearing the exact token reaches the upstream call. -/
theorem proxyLlm_auth (authHeader : Option String) (proxyAuth : String)
    (upstream : Except String Unit) :
    (authHeader ≠ some ("Bearer " ++ proxyAuth) →
      proxyLlmHandler authHeader proxyAuth upstream = (401, some "Unauthorized", false)) ∧
    (authHeader = some ("Bearer " ++ proxyAuth) →
      (proxyLlmHandler authHeader proxyAuth upstream).2.2 = true) := by
  constructor
  · intro h
    simp [proxyLlmHandler, h]
  · intro h
    cases upstream with
    | ok u => simp [proxyLlmHandler, h]
    | error e => simp [proxyLlmHandler, h]

/-- Witness for C10: a wrong token is rejected without an upstream call and
the exact token reaches upstream. -/
theorem proxyLlm_auth_witness :
    proxyLlmHandler (some "Bearer wrong") "secure_proxy_token_123" (Except.ok ()) =
      (401, some "Unauthorized", false) ∧
    (proxyLlmHandler (some "Bearer secure_proxy_token_123") "secure_proxy_token_123"
      (Except.ok ())).2.2 = true := by
  constructor
  · exact (proxyLlm_auth (some "Bearer wrong") "secure_proxy_token_123" (Except.ok ())).1
      (by decide)
  · exact (proxyLlm_auth (some "Bearer secure_proxy_token_123") "secure_proxy_token_123"
      (Except.ok ())).2 (by decide)

/-- C4 fails as stated: the server registers /proxy/llm (and /api/callbacks),
which are not among the five claimed routes, so the five are not the whole
exposed surface. -/
theorem restSurface_counterexample :
    ("POST", "/proxy/llm") ∈ registeredRoutes ∧ "/proxy/llm" ∉ claimedRestSurface ∧
    ("POST", "/api/callbacks") ∈ registeredRoutes ∧ "/api/callbacks" ∉ claimedRestSurface := by
  refine ⟨by decide, by decide, by decide, by decide⟩

/-- C4 amended: the server exposes exactly seven routes, the five the
specification lists for the frontend plus /proxy/llm (the LLM proxy the
vendor platform calls back) and /api/callbacks (the vendor event sink); each
of the five listed is among them. -/
theorem registeredRoutes_exact :
    registeredRoutes.map Prod.snd =
      ["/proxy/llm", "/api/start", "/api/send-message", "/api/stop", "/api/callbacks",
       "/api/token", "/health"] ∧
    (claimedRestSurface.all (fun p => (registeredRoutes.map Prod.snd).contains p)) = true := by
  exact ⟨rfl, by decide⟩

/-! ## The client chat hook (useChat, src/unnamed/part_001, second revision)

The Message records the hook builds and hands to the local-storage memory
service, and the Cmd 4 (LLM result) update it applies to the displayed
message list.  Optional Lean fields model JS object fields present only on
some messages. -/

/-- A chat message as the client types it; isStreaming and transcript are
present only on some messages. -/
structure Message where
  id : String
  content : String
  sender : String
  timestamp : Nat
  type : String
  isStreaming : Option Bool := none
  transcript : Option String := none
  deriving DecidableEq

/-- The field names present on a message object, in literal order. -/
def messageFields (m : Message) : List String :=
  ["id", "content", "sender", "timestamp", "type"]
    ++ (match m.isStreaming with | some _ => ["isStreaming"] | none => [])
    ++ (match m.transcript with | some _ => ["transcript"] | none => [])

/-- The user voice message the Cmd 3 handler persists on a final transcript
(useChat lines 565-572): content and transcript both carry the trimmed
transcript, and the type is voice. -/
def voiceUserMessage (messageId transcript : String) (now : Nat) : Message :=
  { id := messageId, content := transcript.trim, sender := "user", timestamp := now,
    type := "voice", transcript := some transcript.trim }

/-- The user text message sendTextMessage persists (useChat lines 640-646);
the content is the trimmed input. -/
def textUserMessage (messageId content : String) (now : Nat) : Message :=
  { id := messageId, content := content.trim, sender := "user", timestamp := now, type := "text" }

/-- The final AI message the Cmd 4 handler persists on EndFlag (useChat lines
615-621). -/
def finalAiMessage (messageId content : String) (now : Nat) : Message :=
  { id := messageId, content := content, sender := "ai", timestamp := now, type := "text" }

/-- The streaming AI message the Cmd 4 handler appends for a new MessageId
(useChat lines 601-608). -/
def streamingAiMessage (messageId content : String) (endFlag : Bool) (now : Nat) : Message :=
  { id := messageId, content := content, sender := "ai", timestamp := now, type := "text",
    isStreaming := some (!endFlag) }

/-- The Cmd 4 update of the displayed message list (useChat lines 588-611):
falsy Text or MessageId returns the list unchanged; when a message with the
incoming MessageId exists, every such message has its content replaced in
place and its streaming flag refreshed; otherwise one streaming AI message is
appended at the end. -/
def handleCmd4 (prev : List Message) (content messageId : String) (endFlag : Bool)
    (now : Nat) : List Message :=
  if content = "" ∨ messageId = "" then prev
  else
    match prev.find? (fun m => m.id = messageId) with
    | some _ =>
      prev.map (fun m =>
        if m.id = messageId then { m with content := content, isStreaming := some (!endFlag) }
        else m)
    | none => prev ++ [streamingAiMessage messageId content endFlag now]

/-- The message the Cmd 4 handler hands to the memory service: only when Text
and MessageId are truthy and EndFlag is set, and then the five-field final AI
message (useChat lines 613-622). -/
def cmd4PersistedMessage (content messageId : String) (endFlag : Bool) (now : Nat) :
    Option Message :=
  if content = "" ∨ messageId = "" then none
  else if endFlag then some (finalAiMessage messageId content now) else none

/-! ## Claims C6 and C9 on the chat hook -/

/-- C6 fails as stated: the voice message the Cmd 3 handler persists carries a
sixth field, transcript, beyond the claimed five. -/
theorem persistedFields_counterexample :
    messageFields (voiceUserMessage "voice_1" "hello there" 42) ≠
      ["id", "content", "sender", "timestamp", "type"] ∧
    "transcript" ∈ messageFields (voiceUserMessage "voice_1" "hello there" 42) := by
  exact ⟨by decide, by decide⟩

/-- C6 amended: every message the hook persists carries id, content, sender,
timestamp and type; text messages (user text and final AI) carry exactly
those five, while user voice messages additionally carry a transcript field
equal to the trimmed transcript. -/
theorem persistedFields_amended (mid c t : String) (now : Nat) :
    messageFields (textUserMessage mid c now) =
      ["id", "content", "sender", "timestamp", "type"] ∧
    messageFields (finalAiMessage mid c now) =
      ["id", "content", "sender", "timestamp", "type"] ∧
    (∀ m : Message, cmd4PersistedMessage c mid true now = some m →
      messageFields m = ["id", "content", "sender", "timestamp", "type"]) ∧
    messageFields (voiceUserMessage mid t now) =
      ["id", "content", "sender", "timestamp", "type", "transcript"] ∧
    (voiceUserMessage mid t now).transcript = some t.trim := by
  refine ⟨rfl, rfl, ?_, rfl, rfl⟩
  intro m hm
  unfold cmd4PersistedMessage at hm
  by_cases h : c = "" ∨ mid = ""
  · simp [h] at hm
  · simp only [h, if_false, if_true] at hm
    cases hm
    rfl

/-- Witness for C6 amended, at concrete inputs with both branches of the
persistence guard. -/
theorem persistedFields_amended_witness :
    messageFields (textUserMessage "text_1" " hi " 7) =
      ["id", "content", "sender", "timestamp", "type"] ∧
    messageFields (voiceUserMessage "voice_1" " hi " 7) =
      ["id", "content", "sender", "timestamp", "type", "transcript"] :=
  ⟨(persistedFields_amended "text_1" " hi " " hi " 7).1,
   (persistedFields_amended "voice_1" " hi " " hi " 7).2.2.2.1⟩

/-- C9: for an incoming Cmd 4 message with truthy Text and MessageId, when the
MessageId already identifies a message in the list the handler replaces that
message content in place, preserving both the length and the id sequence of
the list; only when no such message exists is exactly one new message
appended. -/
theorem handleCmd4_id_unique (prev : List Message) (content messageId : String)
    (endFlag : Bool) (now : Nat) (hc : content ≠ "") (hm : messageId ≠ "") :
    ((∃ m ∈ prev, m.id = messageId) →
      (handleCmd4 prev content messageId endFlag now).length = prev.length ∧
      (handleCmd4 prev content messageId endFlag now).map Message.id =
        prev.map Message.id ∧
      ∀ m ∈ handleCmd4 prev content messageId endFlag now,
        m.id = messageId → m.content = content) ∧
    ((¬ ∃ m ∈ prev, m.id = messageId) →
      handleCmd4 prev content messageId endFlag now =
        prev ++ [streamingAiMessage messageId content endFlag now]) := by
  have hguard : ¬ (content = "" ∨ messageId = "") := by
    intro h
    cases h with
    | inl h1 => exact hc h1
    | inr h2 => exact hm h2
  constructor
  · intro hex
    have hfind : (prev.find? (fun m => m.id = messageId)).isSome = true := by
      rw [List.find?_isSome]
      obtain ⟨m0, hmem, hid⟩ := hex
      exact ⟨m0, hmem, decide_eq_true hid⟩
    obtain ⟨m0, hm0⟩ := Option.isSome_iff_exists.mp hfind
    unfold handleCmd4
    rw [if_neg hguard, hm0]
    refine ⟨List.length_map _ _, ?_, ?_⟩
    · rw [List.map_map]
      apply List.map_congr_left
      intro m _
      by_cases h : m.id = messageId
      · simp [h]
      · simp [h]
    · intro m hmem hid
      obtain ⟨m1, hm1, heq⟩ := List.mem_map.mp hmem
      by_cases h : m1.id = messageId
      · rw [if_pos h] at heq
        rw [← heq]
      · rw [if_neg h] at heq
        rw [← heq] at hid
        exact absurd hid h
  · intro hnex
    have hfind : prev.find? (fun m => m.id = messageId) = none := by
      rw [List.find?_eq_none]
      intro m hmem hid
      exact hnex ⟨m, hmem, of_decide_eq_true hid⟩
    unfold handleCmd4
    rw [if_neg hguard, hfind]

/-- Witness for C9: replacing in place at an existing id, appending at a
fresh id. -/
theorem handleCmd4_id_unique_witness :
    ((handleCmd4 [finalAiMessage "a" "old" 0] "new" "a" true 1).length =
        [finalAiMessage "a" "old" 0].length ∧
      (handleCmd4 [finalAiMessage "a" "old" 0] "new" "a" true 1).map Message.id =
        [finalAiMessage "a" "old" 0].map Message.id ∧
      ∀ m ∈ handleCmd4 [finalAiMessage "a" "old" 0] "new" "a" true 1,
        m.id = "a" → m.content = "new") ∧
    handleCmd4 [finalAiMessage "a" "old" 0] "new" "b" false 1 =
      [finalAiMessage "a" "old" 0] ++ [streamingAiMessage "b" "new" false 1] := by
  constructor
  · exact (handleCmd4_id_unique [finalAiMessage "a" "old" 0] "new" "a" true 1
      (by decide) (by decide)).1 ⟨finalAiMessage "a" "old" 0, by simp, rfl⟩
  · exact (handleCmd4_id_unique [finalAiMessage "a" "old" 0] "new" "b" false 1
      (by decide) (by decide)).2 (by decide)

end ZegoAgent
